import Mathlib

/-!
Verification of the aggregation core of the netflix-rail repository
(src/data_fetcher.py) against its natural-language specification.

The embedding below mirrors the Python source shallowly:

* Network requests (the four HTTP endpoints used by the fetcher) are modelled
  by a `Net` environment of functions returning `Except Exn r`: an `.error`
  value stands for any exception raised while performing the call or decoding
  its JSON body, and an `.ok` value stands for a correctly shaped JSON
  response.  JSON fields that may be absent are `Option` fields; scalar
  passthrough values whose contents no claim inspects (ratings, popularity)
  are modelled as strings, since the source merely copies them.

* The `try:/except:` blocks of the source are mirrored exactly: the per-item
  block turns a failing enrichment step into a dropped item (`none`), and the
  per-combination block turns a failing discover call into an abandoned
  combination that keeps the records accumulated so far.

* Observable effects (outbound calls, progress-callback invocations, processed
  pages, the CSV write performed by `to_csv`) are recorded in an `Event`
  trace so that theorems can speak about them.

* Python string comparison and `str.startswith`/`str.endswith` are modelled
  by structurally recursive predicates over the character lists of the
  strings, which agree with code-point lexicographic comparison.
-/

/-- Exceptions are abstract; only their propagation matters. -/
abbrev Exn := String

/-- One raw item of a discover page, reduced to the keys the source reads.
Absent keys are `none`; `item.get` on an absent key yields `none` without
raising, while the subscript `item["id"]` on an absent key raises. -/
structure Item where
  id : Option Int
  name : Option String
  title : Option String
  overview : Option String
  release_date : Option String
  first_air_date : Option String
  vote_average : Option String
  popularity : Option String
  poster_path : Option String
deriving DecidableEq

/-- Body of a `/discover` response, reduced to the keys the source reads. -/
structure DiscoverResponse where
  total_pages : Option Int
  results : Option (List Item)
deriving DecidableEq

/-- Body of a details response: each entry of the `genres` array is reduced to
the result of looking up its `name` key (`none` when that key is absent, in
which case the list comprehension in the source raises). -/
structure DetailsResponse where
  genres : Option (List (Option String))
deriving DecidableEq

/-- Body of an `/external_ids` response. -/
structure ExternalIdsResponse where
  imdb_id : Option String
deriving DecidableEq

/-- Body of an OMDb response. -/
structure OmdbResponse where
  imdbRating : Option String
  imdbVotes : Option String
deriving DecidableEq

/-- The network: one function per HTTP endpoint used by the source.  Each
receives the credential the source puts in the request, so an environment can
make behaviour depend on the key. -/
structure Net where
  discover : String → String → String → Int → Int → Except Exn DiscoverResponse
  details : String → String → Int → Except Exn DetailsResponse
  external_ids : String → String → Int → Except Exn ExternalIdsResponse
  omdb : String → String → Except Exn OmdbResponse

/-- Mirror of the `StreamingDataFetcher` constructor state. -/
structure StreamingDataFetcher where
  tmdb_api_key : String
  omdb_api_key : String
  region : String
deriving DecidableEq

/-- The provider table assigned in `__init__`; iteration order is Python dict
insertion order. -/
def StreamingDataFetcher.providers (_self : StreamingDataFetcher) :
    List (Int × String) :=
  [(8, "Netflix"), (2, "Apple TV"), (9, "Amazon Prime"), (337, "Disney+"),
   (384, "HBO Max"), (15, "Hulu")]

/-- Mirror of `get_streaming_content`. -/
def StreamingDataFetcher.get_streaming_content (self : StreamingDataFetcher)
    (net : Net) (content_type : String) (provider_id : Int) (page : Int) :
    Except Exn DiscoverResponse :=
  net.discover self.tmdb_api_key self.region content_type provider_id page

/-- Mirror of `get_imdb_data`. -/
def StreamingDataFetcher.get_imdb_data (self : StreamingDataFetcher)
    (net : Net) (imdb_id : String) : Except Exn OmdbResponse :=
  net.omdb imdb_id self.omdb_api_key

/-- Mirror of `get_external_ids`. -/
def StreamingDataFetcher.get_external_ids (self : StreamingDataFetcher)
    (net : Net) (content_type : String) (tmdb_id : Int) :
    Except Exn ExternalIdsResponse :=
  net.external_ids self.tmdb_api_key content_type tmdb_id

/-- Mirror of `get_content_details`. -/
def StreamingDataFetcher.get_content_details (self : StreamingDataFetcher)
    (net : Net) (content_type : String) (tmdb_id : Int) :
    Except Exn DetailsResponse :=
  net.details self.tmdb_api_key content_type tmdb_id

/-- One row of the aggregate output: the `content_info` dict of the source.
`genres` is `none` when the source leaves the key unset. -/
structure ContentInfo where
  type : String
  title : Option String
  overview : Option String
  tmdb_id : Int
  imdb_id : Option String
  provider : String
  release_date : Option String
  tmdb_rating : Option String
  popularity : Option String
  poster_path : Option String
  genres : Option String
  imdb_rating : String
  imdb_votes : String
deriving DecidableEq

/-- Observable effects of a run. -/
inductive Event where
  | discoverCall (content_type : String) (provider_id : Int) (page : Int)
  | detailsCall (content_type : String) (tmdb_id : Int)
  | externalIdsCall (content_type : String) (tmdb_id : Int)
  | omdbCall (imdb_id : String)
  | progress (message : String) (fraction : ℚ)
  | pageProcessed (content_type : String) (provider_id : Int) (page : Int)
  | csvWrite (filename : String) (rows : List ContentInfo)
deriving DecidableEq

/-- The genre list comprehension with its join: absent `genres` key leaves the
record field unset; a genre dict without a `name` key raises. -/
def joinedGenres : Option (List (Option String)) → Except Exn (Option String)
  | none => Except.ok none
  | some gs =>
    match gs.mapM (fun g => g) with
    | none => Except.error ("KeyError: name")
    | some names => Except.ok (some (String.intercalate (", ") names))

/-- Body of the per-item `try:` block.  Returns the emitted events together
with `some record` on success and `none` when any step raised (the source
catches the exception and skips the item). -/
def process_item (self : StreamingDataFetcher) (net : Net)
    (content_type provider_name : String) (item : Item) :
    List Event × Option ContentInfo :=
  match item.id with
  | none => ([], none)
  | some tmdb_id =>
    let ev1 := Event.detailsCall content_type tmdb_id
    match self.get_content_details net content_type tmdb_id with
    | Except.error _ => ([ev1], none)
    | Except.ok details =>
      let ev2 := Event.externalIdsCall content_type tmdb_id
      match self.get_external_ids net content_type tmdb_id with
      | Except.error _ => ([ev1, ev2], none)
      | Except.ok external_ids =>
        let imdb_id := external_ids.imdb_id
        let base : ContentInfo :=
          { type := if content_type = "tv" then "TV Show" else "Movie"
            title := if content_type = "tv" then item.name else item.title
            overview := item.overview
            tmdb_id := tmdb_id
            imdb_id := imdb_id
            provider := provider_name
            release_date :=
              if content_type = "tv" then item.first_air_date
              else item.release_date
            tmdb_rating := item.vote_average
            popularity := item.popularity
            poster_path := item.poster_path
            genres := none
            imdb_rating := "N/A"
            imdb_votes := "N/A" }
        match joinedGenres details.genres with
        | Except.error _ => ([ev1, ev2], none)
        | Except.ok genres_field =>
          let info := { base with genres := genres_field }
          match imdb_id with
          | none => ([ev1, ev2], some info)
          | some i =>
            if i = "" then ([ev1, ev2], some info)
            else
              let ev3 := Event.omdbCall i
              match self.get_imdb_data net i with
              | Except.error _ => ([ev1, ev2, ev3], none)
              | Except.ok imdb_data =>
                ([ev1, ev2, ev3], some
                  { info with
                    imdb_rating := imdb_data.imdbRating.getD ("N/A")
                    imdb_votes := imdb_data.imdbVotes.getD ("N/A") })

/-- The `for item in data.get("results", [])` loop. -/
def process_items (self : StreamingDataFetcher) (net : Net)
    (content_type provider_name : String) :
    List Item → List Event × List ContentInfo
  | [] => ([], [])
  | item :: rest =>
    let r := process_item self net content_type provider_name item
    let rs := process_items self net content_type provider_name rest
    (r.1 ++ rs.1, r.2.toList ++ rs.2)

/-- Items of one page. -/
def process_page (self : StreamingDataFetcher) (net : Net)
    (content_type provider_name : String) (data : DiscoverResponse) :
    List Event × List ContentInfo :=
  process_items self net content_type provider_name (data.results.getD [])

/-- Python `range(1, n + 1)`. -/
def pageList (n : Int) : List Int :=
  (List.range n.toNat).map (fun i => Int.ofNat i + 1)

/-- The progress message built for one page. -/
def progressMessage (provider_name content_type : String)
    (page total_pages : Int) : String :=
  "Processing " ++ provider_name ++ " " ++ content_type ++ "s - page " ++
    toString page ++ "/" ++ toString total_pages

/-- The `for page in range(1, total_pages + 1)` loop.  The progress callback
fires first; page 1 reuses the already fetched response, later pages call
discover again, and a raise there is caught by the surrounding
per-combination `except:`, keeping the records accumulated so far. -/
def run_pages (self : StreamingDataFetcher) (net : Net) (content_type : String)
    (provider_id : Int) (provider_name : String) (initial : DiscoverResponse)
    (total_pages provider_idx total_providers : Int) :
    List Int → List Event × List ContentInfo
  | [] => ([], [])
  | page :: rest =>
    let msg := progressMessage provider_name content_type page total_pages
    let frac : ℚ := ((provider_idx : ℚ) - 1) / (total_providers : ℚ)
    let pev := Event.progress msg frac
    if page > 1 then
      match self.get_streaming_content net content_type provider_id page with
      | Except.error _ => ([pev, Event.discoverCall content_type provider_id page], [])
      | Except.ok data =>
        let pr := process_page self net content_type provider_name data
        let rs := run_pages self net content_type provider_id provider_name
          initial total_pages provider_idx total_providers rest
        (pev :: Event.discoverCall content_type provider_id page ::
            (pr.1 ++ Event.pageProcessed content_type provider_id page :: rs.1),
          pr.2 ++ rs.2)
    else
      let pr := process_page self net content_type provider_name initial
      let rs := run_pages self net content_type provider_id provider_name
        initial total_pages provider_idx total_providers rest
      (pev :: (pr.1 ++ Event.pageProcessed content_type provider_id page :: rs.1),
        pr.2 ++ rs.2)

/-- Body of the per-combination `try:` block: the initial discover call, the
clamp of `total_pages` by `max_pages`, and the page loop.  A raise of the
initial call is caught by the per-combination `except:`, yielding no records
for the combination. -/
def process_combination (self : StreamingDataFetcher) (net : Net)
    (content_type : String) (provider_id : Int) (provider_name : String)
    (provider_idx total_providers max_pages : Int) :
    List Event × List ContentInfo :=
  let dev := Event.discoverCall content_type provider_id 1
  match self.get_streaming_content net content_type provider_id 1 with
  | Except.error _ => ([dev], [])
  | Except.ok initial_data =>
    let total_pages := min (initial_data.total_pages.getD 1) max_pages
    let r := run_pages self net content_type provider_id provider_name
      initial_data total_pages provider_idx total_providers
      (pageList total_pages)
    (dev :: r.1, r.2)

/-- The two nested outer loops, with the running `provider_idx += 1`
counter threaded through. -/
def run_combinations (self : StreamingDataFetcher) (net : Net)
    (total_providers max_pages : Int) :
    Int → List (String × Int × String) → List Event × List ContentInfo
  | _, [] => ([], [])
  | idx, (content_type, provider_id, provider_name) :: rest =>
    let r := process_combination self net content_type provider_id
      provider_name (idx + 1) total_providers max_pages
    let rs := run_combinations self net total_providers max_pages (idx + 1) rest
    (r.1 ++ rs.1, r.2 ++ rs.2)

/-- The `content_types` list of `build_content_database`. -/
def content_types : List String := ["movie", "tv"]

/-- The Cartesian iteration order of the two outer loops. -/
def StreamingDataFetcher.combinations (self : StreamingDataFetcher) :
    List (String × Int × String) :=
  (content_types.map
    (fun ct => self.providers.map (fun pr => (ct, pr.1, pr.2)))).flatten

/-- Filename produced by `to_csv`, with `now` standing for the strftime
timestamp. -/
def snapshot_filename (now : String) : String :=
  "streaming_content_" ++ now ++ ".csv"

/-- Result of `build_content_database`: the DataFrame rows, the filename the
function returned, and the trace of observable effects. -/
structure BuildResult where
  records : List ContentInfo
  filename : String
  events : List Event

/-- Mirror of `build_content_database`.  The accumulated `all_content` list is
turned into a DataFrame and written to a timestamped CSV before the function
returns. -/
def StreamingDataFetcher.build_content_database (self : StreamingDataFetcher)
    (net : Net) (now : String) (max_pages : Int) : BuildResult :=
  let total_providers : Int := self.providers.length
  let r := run_combinations self net total_providers max_pages 0
    self.combinations
  let filename := snapshot_filename now
  { records := r.2
    filename := filename
    events := r.1 ++ [Event.csvWrite filename r.2] }

/-- Python code-point lexicographic order on character lists. -/
def lexLtChars : List Char → List Char → Bool
  | [], [] => false
  | [], _ :: _ => true
  | _ :: _, [] => false
  | a :: as, b :: bs =>
    if a < b then true else if b < a then false else lexLtChars as bs

/-- Python `a < b` on strings. -/
def strLt (a b : String) : Bool := lexLtChars a.data b.data

/-- Structural model of `str.startswith`. -/
def strStartsAux : List Char → List Char → Bool
  | [], _ => true
  | _ :: _, [] => false
  | p :: ps, s :: ss => p == s && strStartsAux ps ss

/-- Python `f.startswith(p)`. -/
def str_starts (f p : String) : Bool := strStartsAux p.data f.data

/-- Python `f.endswith(p)`. -/
def str_ends (f p : String) : Bool :=
  strStartsAux p.data.reverse f.data.reverse

/-- The filename filter of `load_or_create_database`. -/
def snapshotName (f : String) : Bool :=
  str_starts f ("streaming_content_") && str_ends f (".csv")

/-- Python `sorted(csv_files)[-1]` on a non-empty list: the lexicographically
greatest element. -/
def latest_file (f : String) (rest : List String) : String :=
  rest.foldl (fun a b => if strLt a b then b else a) f

/-- The local filesystem as seen by `load_or_create_database`: the directory
listing, the behaviour of `pd.read_csv`, and the current strftime timestamp. -/
structure FS where
  listing : List String
  read_csv : String → Except Exn (List ContentInfo)
  now : String

/-- Result of `load_or_create_database` together with its effect trace. -/
structure LoadOrCreateResult where
  table : List ContentInfo
  filename : String
  events : List Event

/-- Mirror of `load_or_create_database`.  The first match arm is the
`if csv_files and not force_refresh:` branch; `pd.read_csv` has no handler,
so its failure propagates.  The second arm constructs a fetcher and builds. -/
def load_or_create_database (tmdb_api_key omdb_api_key : String) (net : Net)
    (fs : FS) (force_refresh : Bool) (max_pages : Int) :
    Except Exn LoadOrCreateResult :=
  match fs.listing.filter snapshotName, force_refresh with
  | f :: rest, false =>
    let latest := latest_file f rest
    match fs.read_csv latest with
    | Except.error e => Except.error e
    | Except.ok table =>
      Except.ok { table := table, filename := latest, events := [] }
  | _, _ =>
    let fetcher : StreamingDataFetcher := ⟨tmdb_api_key, omdb_api_key, "US"⟩
    let r := fetcher.build_content_database net fs.now max_pages
    Except.ok { table := r.records, filename := r.filename, events := r.events }

/-- Progress fractions carried by a trace, in order. -/
def progressFracs (evs : List Event) : List ℚ :=
  evs.filterMap (fun e =>
    match e with
    | Event.progress _ q => some q
    | _ => none)

/-- Recognizer for page-completion marks. -/
def isPageProcessed : Event → Bool
  | Event.pageProcessed _ _ _ => true
  | _ => false

/-- Recognizer for CSV writes. -/
def isCsvWrite : Event → Bool
  | Event.csvWrite _ _ => true
  | _ => false

/-- Number of pages a trace processed. -/
def pagesProcessed (evs : List Event) : Nat :=
  (evs.filter isPageProcessed).length

/-- Number of snapshot files a trace wrote. -/
def csvWrites (evs : List Event) : Nat :=
  (evs.filter isCsvWrite).length

/-- Number of detail-lookup calls in a trace. -/
def detailsCalls (evs : List Event) : Nat :=
  (evs.filter (fun e =>
    match e with
    | Event.detailsCall _ _ => true
    | _ => false)).length

/-- Whether `load_or_create_database` returned without an exception. -/
def resultOk : Except Exn LoadOrCreateResult → Bool
  | Except.ok _ => true
  | Except.error _ => false

/-- Snapshot files written by a `load_or_create_database` run. -/
def resultWrites : Except Exn LoadOrCreateResult → Nat
  | Except.ok r => csvWrites r.events
  | Except.error _ => 0

/-! ### Concrete environments used by counterexamples and witnesses -/

/-- A fetcher instance with arbitrary fixed credentials. -/
def fetcher0 : StreamingDataFetcher := ⟨"k1", "k2", "US"⟩

/-- Every discover call succeeds with one empty page; enrichment calls fail. -/
def netOkEmpty : Net :=
  { discover := fun _ _ _ _ _ =>
      Except.ok { total_pages := some 1, results := some [] }
    details := fun _ _ _ => Except.error ("TransportError")
    external_ids := fun _ _ _ => Except.error ("TransportError")
    omdb := fun _ _ => Except.error ("TransportError") }

/-- Every outbound call fails. -/
def netAllFail : Net :=
  { discover := fun _ _ _ _ _ => Except.error ("TransportError")
    details := fun _ _ _ => Except.error ("TransportError")
    external_ids := fun _ _ _ => Except.error ("TransportError")
    omdb := fun _ _ => Except.error ("TransportError") }

/-- A discover item that carries an id but no name, title or other key. -/
def itemTitleless : Item :=
  { id := some 1, name := none, title := none, overview := none,
    release_date := none, first_air_date := none, vote_average := none,
    popularity := none, poster_path := none }

/-- Discover succeeds with one titleless item; the enrichment calls succeed
but resolve nothing. -/
def netTitleless : Net :=
  { discover := fun _ _ _ _ _ =>
      Except.ok { total_pages := some 1, results := some [itemTitleless] }
    details := fun _ _ _ => Except.ok { genres := none }
    external_ids := fun _ _ _ => Except.ok { imdb_id := none }
    omdb := fun _ _ => Except.error ("TransportError") }

/-- Discover succeeds with one item whose detail lookup fails. -/
def netDetailsFail : Net :=
  { discover := fun _ _ _ _ _ =>
      Except.ok { total_pages := some 1, results := some [itemTitleless] }
    details := fun _ _ _ => Except.error ("TransportError")
    external_ids := fun _ _ _ => Except.ok { imdb_id := none }
    omdb := fun _ _ => Except.error ("TransportError") }

/-- Discover succeeds with one item; the detail lookup succeeds with no
genres, the external-id lookup fails. -/
def netExtFail : Net :=
  { discover := fun _ _ _ _ _ =>
      Except.ok { total_pages := some 1, results := some [itemTitleless] }
    details := fun _ _ _ => Except.ok { genres := none }
    external_ids := fun _ _ _ => Except.error ("TransportError")
    omdb := fun _ _ => Except.error ("TransportError") }

/-- Discover succeeds with one item; detail and external-id lookups succeed,
an IMDb id resolves, and the rating lookup fails. -/
def netOmdbFail : Net :=
  { discover := fun _ _ _ _ _ =>
      Except.ok { total_pages := some 1, results := some [itemTitleless] }
    details := fun _ _ _ => Except.ok { genres := none }
    external_ids := fun _ _ _ => Except.ok { imdb_id := some "tt0000001" }
    omdb := fun _ _ => Except.error ("TransportError") }

/-- Discover reports three pages with no items; enrichment calls fail. -/
def netTp3 : Net :=
  { discover := fun _ _ _ _ _ =>
      Except.ok { total_pages := some 3, results := some [] }
    details := fun _ _ _ => Except.error ("TransportError")
    external_ids := fun _ _ _ => Except.error ("TransportError")
    omdb := fun _ _ => Except.error ("TransportError") }

/-- An empty working directory. -/
def fsEmpty : FS :=
  { listing := [], read_csv := fun _ => Except.error ("LoadError"),
    now := "ts0" }

/-- One matching snapshot file whose load fails. -/
def fsOne : FS :=
  { listing := ["streaming_content_20240101_010101.csv"],
    read_csv := fun _ => Except.error ("LoadError"), now := "ts0" }

/-- Two matching snapshot files and an unrelated file; loads succeed with an
empty table. -/
def fsTwo : FS :=
  { listing := ["streaming_content_20240101_010101.csv", "other.txt",
                "streaming_content_20240601_000000.csv"],
    read_csv := fun _ => Except.ok [], now := "ts0" }

/-- The record produced for `itemTitleless` in the first combination. -/
def recC7 : ContentInfo :=
  { type := "Movie", title := none, overview := none, tmdb_id := 1,
    imdb_id := none, provider := "Netflix", release_date := none,
    tmdb_rating := none, popularity := none, poster_path := none,
    genres := none, imdb_rating := "N/A", imdb_votes := "N/A" }

/-! ### C1: the progress fraction leaves the unit interval mid-run -/

/-- C1: refuted on the code.  `provider_idx` counts (content type, provider)
combinations, 1 to 12, but the denominator is `len(self.providers) = 6`, so
during the tv pass the callback receives fractions above 1: the eighth
combination reports 7/6.  The spec (and the `st.progress` consumer in
app.py, which rejects values above 1) requires a fraction in the unit
interval, so the code is in error. -/
theorem c1_progress_fraction_exceeds_one :
    (7 : ℚ) / 6 ∈ progressFracs
        (fetcher0.build_content_database netOkEmpty ("t") 2).events ∧
      (1 : ℚ) < (7 : ℚ) / 6 := by
  constructor
  · simp only [StreamingDataFetcher.build_content_database,
      StreamingDataFetcher.combinations, StreamingDataFetcher.providers,
      content_types, run_combinations, process_combination,
      StreamingDataFetcher.get_streaming_content, fetcher0, netOkEmpty,
      run_pages, process_page, process_items, pageList, progressFracs,
      List.map, List.flatten, List.filterMap, List.range, List.range.loop,
      Option.getD]
    norm_num
  · norm_num

/-- C3 counterexample: contrary to the claim, `build_content_database` itself
writes a snapshot file: even a run in which every outbound call fails ends
with exactly one CSV write. -/
theorem c3_counterexample_build_writes_snapshot :
    csvWrites (fetcher0.build_content_database netAllFail ("t") 2).events
      = 1 := by decide

/-- C4 counterexample: with both credentials empty and no existing snapshot,
`load_or_create_database` raises no `CredentialError` — it returns normally
and writes a snapshot file. -/
theorem c4_counterexample_no_credential_error :
    resultOk (load_or_create_database "" "" netAllFail fsEmpty false 2)
        = true ∧
      resultWrites (load_or_create_database "" "" netAllFail fsEmpty false 2)
        = 1 := by
  exact ⟨by decide, by decide⟩

/-- C5 counterexample: when the selected snapshot fails to load,
`load_or_create_database` propagates the load error instead of rebuilding. -/
theorem c5_counterexample_load_error_propagates :
    load_or_create_database "k" "k" netAllFail fsOne false 2 =
      Except.error ("LoadError") := rfl

/-- C7 counterexample: a discover item with an id but no name/title key
yields records whose `title` field is null, in every combination. -/
theorem c7_counterexample_title_none :
    (fetcher0.build_content_database netTitleless ("t") 1).records.map
        ContentInfo.title = List.replicate 12 none := by decide

/-- C8 counterexample: when the detail lookup of a discovered item fails, the
item is dropped: twelve detail calls are attempted, no record is emitted. -/
theorem c8_counterexample_enrichment_failure_drops_item :
    (fetcher0.build_content_database netDetailsFail ("t") 1).records = [] ∧
      detailsCalls
        (fetcher0.build_content_database netDetailsFail ("t") 1).events
        = 12 := by
  exact ⟨by decide, by decide⟩

/-! ### Trace-shape lemmas -/

theorem process_item_filter_page (self : StreamingDataFetcher) (net : Net)
    (ct pname : String) (item : Item) :
    ((process_item self net ct pname item).1).filter isPageProcessed = [] := by
  unfold process_item
  cases item.id with
  | none => rfl
  | some tid =>
    dsimp only
    repeat' split
    all_goals rfl

theorem process_item_filter_csv (self : StreamingDataFetcher) (net : Net)
    (ct pname : String) (item : Item) :
    ((process_item self net ct pname item).1).filter isCsvWrite = [] := by
  unfold process_item
  cases item.id with
  | none => rfl
  | some tid =>
    dsimp only
    repeat' split
    all_goals rfl

theorem process_items_filter_page (self : StreamingDataFetcher) (net : Net)
    (ct pname : String) (items : List Item) :
    ((process_items self net ct pname items).1).filter isPageProcessed
      = [] := by
  induction items with
  | nil => rfl
  | cons item rest ih =>
    simp [process_items, List.filter_append, process_item_filter_page, ih]

theorem process_items_filter_csv (self : StreamingDataFetcher) (net : Net)
    (ct pname : String) (items : List Item) :
    ((process_items self net ct pname items).1).filter isCsvWrite = [] := by
  induction items with
  | nil => rfl
  | cons item rest ih =>
    simp [process_items, List.filter_append, process_item_filter_csv, ih]

theorem run_pages_filter_csv (self : StreamingDataFetcher) (net : Net)
    (ct : String) (pid : Int) (pname : String) (initial : DiscoverResponse)
    (tp pidx tprov : Int) (pages : List Int) :
    ((run_pages self net ct pid pname initial tp pidx tprov pages).1).filter
      isCsvWrite = [] := by
  induction pages with
  | nil => rfl
  | cons page rest ih =>
    simp only [run_pages]
    split
    · split
      · rfl
      · simp [List.filter_append, List.filter_cons, isCsvWrite, process_page,
          process_items_filter_csv, ih]
    · simp [List.filter_append, List.filter_cons, isCsvWrite, process_page,
        process_items_filter_csv, ih]

theorem process_combination_filter_csv (self : StreamingDataFetcher)
    (net : Net) (ct : String) (pid : Int) (pname : String)
    (pidx tprov mp : Int) :
    ((process_combination self net ct pid pname pidx tprov mp).1).filter
      isCsvWrite = [] := by
  unfold process_combination
  split
  · rfl
  · simp [List.filter_cons, isCsvWrite, run_pages_filter_csv]

theorem run_combinations_filter_csv (self : StreamingDataFetcher) (net : Net)
    (tprov mp : Int) (combos : List (String × Int × String)) :
    ∀ idx,
      ((run_combinations self net tprov mp idx combos).1).filter isCsvWrite
        = [] := by
  induction combos with
  | nil => intro idx; rfl
  | cons c rest ih =>
    intro idx
    obtain ⟨ct, pid, pname⟩ := c
    simp [run_combinations, List.filter_append,
      process_combination_filter_csv, ih]

/-- The trace of a build contains exactly one CSV write: the snapshot of the
accumulated records, written by the function itself. -/
theorem build_events_filter_csv (self : StreamingDataFetcher) (net : Net)
    (now : String) (mp : Int) :
    (self.build_content_database net now mp).events.filter isCsvWrite
      = [Event.csvWrite (snapshot_filename now)
          (self.build_content_database net now mp).records] := by
  simp [StreamingDataFetcher.build_content_database, List.filter_append,
    run_combinations_filter_csv, isCsvWrite]

/-- C3 amended: the aggregation output is the record sequence, but persistence
does not happen in a separate store step: `build_content_database` itself
writes the accumulated records to the timestamped snapshot CSV (exactly one
write, at the end of the run) and returns that filename. -/
theorem c3_build_persists_snapshot_itself (self : StreamingDataFetcher)
    (net : Net) (now : String) (mp : Int) :
    (self.build_content_database net now mp).events.filter isCsvWrite
        = [Event.csvWrite (snapshot_filename now)
            (self.build_content_database net now mp).records] ∧
      (self.build_content_database net now mp).filename
        = snapshot_filename now :=
  ⟨build_events_filter_csv self net now mp, rfl⟩

theorem run_combinations_records_nil (self : StreamingDataFetcher) (net : Net)
    (tprov mp : Int)
    (h : ∀ k r ct pid p, ∃ e, net.discover k r ct pid p = Except.error e) :
    ∀ (combos : List (String × Int × String)) (idx : Int),
      (run_combinations self net tprov mp idx combos).2 = [] := by
  intro combos
  induction combos with
  | nil => intro idx; rfl
  | cons c rest ih =>
    intro idx
    obtain ⟨ct, pid, pname⟩ := c
    obtain ⟨e, he⟩ := h self.tmdb_api_key self.region ct pid 1
    simp [run_combinations, process_combination,
      StreamingDataFetcher.get_streaming_content, he, ih]

/-- C2: `build_content_database` is a total function of the network
environment (every raise inside the combination loop is caught by the
per-item or per-combination handler, so it returns normally for every
pattern of call outcomes), and when every outbound call fails the record
sequence degrades to empty. -/
theorem c2_total_failure_degrades_to_empty (self : StreamingDataFetcher)
    (net : Net) (now : String) (mp : Int)
    (hdisc : ∀ k r ct pid p, ∃ e, net.discover k r ct pid p = Except.error e)
    (hdet : ∀ k ct i, ∃ e, net.details k ct i = Except.error e)
    (hext : ∀ k ct i, ∃ e, net.external_ids k ct i = Except.error e)
    (homdb : ∀ i k, ∃ e, net.omdb i k = Except.error e) :
    (self.build_content_database net now mp).records = [] := by
  simp [StreamingDataFetcher.build_content_database,
    run_combinations_records_nil self net _ mp hdisc]

/-- C2 witness: the all-failing environment yields the empty record list. -/
theorem c2_total_failure_degrades_to_empty_witness :
    (fetcher0.build_content_database netAllFail ("ts") 2).records = [] :=
  c2_total_failure_degrades_to_empty fetcher0 netAllFail "ts" 2
    (fun _ _ _ _ _ => ⟨"TransportError", rfl⟩)
    (fun _ _ _ => ⟨"TransportError", rfl⟩)
    (fun _ _ _ => ⟨"TransportError", rfl⟩)
    (fun _ _ => ⟨"TransportError", rfl⟩)

/-- C4 amended: `load_or_create_database` performs no credential check at
all.  Whenever a rebuild is required (no matching snapshot, or
`force_refresh`), it proceeds with whatever credentials it was given —
including empty ones — runs the build, and the build writes exactly one
snapshot file. -/
theorem c4_empty_credentials_rebuild_builds_and_writes
    (tmdb_key omdb_key : String) (net : Net) (fs : FS) (fr : Bool) (mp : Int)
    (hreb : fs.listing.filter snapshotName = [] ∨ fr = true) :
    load_or_create_database tmdb_key omdb_key net fs fr mp
        = Except.ok
            { table := ((⟨tmdb_key, omdb_key, "US"⟩ :
                StreamingDataFetcher).build_content_database net fs.now
                  mp).records
              filename := ((⟨tmdb_key, omdb_key, "US"⟩ :
                StreamingDataFetcher).build_content_database net fs.now
                  mp).filename
              events := ((⟨tmdb_key, omdb_key, "US"⟩ :
                StreamingDataFetcher).build_content_database net fs.now
                  mp).events } ∧
      csvWrites (((⟨tmdb_key, omdb_key, "US"⟩ :
          StreamingDataFetcher).build_content_database net fs.now mp).events)
        = 1 := by
  constructor
  · unfold load_or_create_database
    rcases hreb with hnil | htrue
    · rw [hnil]
    · subst htrue
      cases hf : fs.listing.filter snapshotName with
      | nil => rfl
      | cons f rest => rfl
  · simp [csvWrites, build_events_filter_csv]

/-- C4 witness: empty credentials, empty directory, forced refresh. -/
theorem c4_empty_credentials_rebuild_builds_and_writes_witness :
    load_or_create_database "" "" netAllFail fsEmpty true 2
        = Except.ok
            { table := ((⟨"", "", "US"⟩ :
                StreamingDataFetcher).build_content_database netAllFail
                  fsEmpty.now 2).records
              filename := ((⟨"", "", "US"⟩ :
                StreamingDataFetcher).build_content_database netAllFail
                  fsEmpty.now 2).filename
              events := ((⟨"", "", "US"⟩ :
                StreamingDataFetcher).build_content_database netAllFail
                  fsEmpty.now 2).events } ∧
      csvWrites (((⟨"", "", "US"⟩ :
          StreamingDataFetcher).build_content_database netAllFail fsEmpty.now
            2).events) = 1 :=
  c4_empty_credentials_rebuild_builds_and_writes "" "" netAllFail fsEmpty
    true 2 (Or.inr rfl)

/-- C5 amended: when a matching snapshot exists and `force_refresh` is false
but loading the selected file raises, `load_or_create_database` propagates
the load error to its caller; the fallback to a rebuild lives in the caller
(app.py), not in this function. -/
theorem c5_load_failure_propagates (tmdb_key omdb_key : String) (net : Net)
    (fs : FS) (mp : Int) (f : String) (rest : List String) (e : Exn)
    (hf : fs.listing.filter snapshotName = f :: rest)
    (he : fs.read_csv (latest_file f rest) = Except.error e) :
    load_or_create_database tmdb_key omdb_key net fs false mp
      = Except.error e := by
  unfold load_or_create_database
  rw [hf]
  dsimp only
  rw [he]

/-- C5 witness: one matching snapshot whose load fails. -/
theorem c5_load_failure_propagates_witness :
    load_or_create_database "k" "k" netAllFail fsOne false 2
      = Except.error ("LoadError") :=
  c5_load_failure_propagates "k" "k" netAllFail fsOne 2
    "streaming_content_20240101_010101.csv" [] "LoadError" rfl rfl

theorem pageList_length (n : Int) : (pageList n).length = n.toNat := by
  unfold pageList
  exact (List.length_map _ _).trans (List.length_range _)

theorem run_pages_pages_count (self : StreamingDataFetcher) (net : Net)
    (ct : String) (pid : Int) (pname : String) (initial : DiscoverResponse)
    (tp pidx tprov : Int)
    (h : ∀ p, 1 < p →
      ∃ d, self.get_streaming_content net ct pid p = Except.ok d) :
    ∀ pages,
      pagesProcessed
          ((run_pages self net ct pid pname initial tp pidx tprov pages).1)
        = pages.length := by
  intro pages
  induction pages with
  | nil => rfl
  | cons page rest ih =>
    simp only [pagesProcessed] at ih ⊢
    simp only [run_pages]
    split
    · rename_i hp
      obtain ⟨d, hd⟩ := h page hp
      rw [hd]
      simp [List.filter_append, List.filter_cons, isPageProcessed,
        process_page, process_items_filter_page, ih]
    · simp [List.filter_append, List.filter_cons, isPageProcessed,
        process_page, process_items_filter_page, ih]

/-- C6: for one (category, provider) combination whose discover calls
succeed, the number of processed pages is the reported `total_pages` clamped
by `max_pages`. -/
theorem c6_pages_clamped (self : StreamingDataFetcher) (net : Net)
    (ct : String) (pid : Int) (pname : String) (pidx tprov mp : Int)
    (initial : DiscoverResponse)
    (h1 : self.get_streaming_content net ct pid 1 = Except.ok initial)
    (h2 : ∀ p, 1 < p →
      ∃ d, self.get_streaming_content net ct pid p = Except.ok d) :
    pagesProcessed
        ((process_combination self net ct pid pname pidx tprov mp).1)
      = (min (initial.total_pages.getD 1) mp).toNat := by
  unfold process_combination
  rw [h1]
  dsimp only
  have hc := run_pages_pages_count self net ct pid pname initial
    (min (initial.total_pages.getD 1) mp) pidx tprov h2
    (pageList (min (initial.total_pages.getD 1) mp))
  simp only [pagesProcessed] at hc ⊢
  simp [List.filter_cons, isPageProcessed, hc, pageList_length]

/-- C6 witness: discover reports 3 pages, `max_pages = 1`, exactly one page
is processed. -/
theorem c6_pages_clamped_witness :
    pagesProcessed
        ((process_combination fetcher0 netTp3 "movie" 8 "Netflix" 1 6 1).1)
      = 1 := by
  have h := c6_pages_clamped fetcher0 netTp3 "movie" 8 "Netflix" 1 6 1
    { total_pages := some 3, results := some [] } rfl
    (fun p _ => ⟨{ total_pages := some 3, results := some [] }, rfl⟩)
  exact h.trans (by decide)

/-- C8 amended: a raise in any enrichment call for an item — the detail
lookup, the external-id lookup, or the rating lookup — skips the item: no
record is emitted for it (never one with partially filled fields), and the
pass continues with the remaining items unchanged.  The "N/A"/absent
fallback applies only when the enrichment calls succeed without resolving
the optional data. -/
theorem c8_enrichment_failure_skips_item (self : StreamingDataFetcher)
    (net : Net) (ct pname : String) (item : Item) (rest : List Item)
    (tid : Int) (hid : item.id = some tid) :
    ((∃ e, self.get_content_details net ct tid = Except.error e) →
        (process_item self net ct pname item).2 = none) ∧
      ((∃ e, self.get_external_ids net ct tid = Except.error e) →
        (process_item self net ct pname item).2 = none) ∧
      (∀ x i, self.get_external_ids net ct tid = Except.ok x →
        x.imdb_id = some i → i ≠ "" →
        (∃ e, self.get_imdb_data net i = Except.error e) →
        (process_item self net ct pname item).2 = none) ∧
      ((process_item self net ct pname item).2 = none →
        (process_items self net ct pname (item :: rest)).2
          = (process_items self net ct pname rest).2) ∧
      (∀ d g x, self.get_content_details net ct tid = Except.ok d →
        joinedGenres d.genres = Except.ok g →
        self.get_external_ids net ct tid = Except.ok x →
        x.imdb_id = none →
        ∃ r, (process_item self net ct pname item).2 = some r ∧
          r.genres = g ∧ r.imdb_rating = "N/A" ∧ r.imdb_votes = "N/A") := by
  refine ⟨?_, ?_, ?_, ?_, ?_⟩
  · rintro ⟨e, he⟩
    unfold process_item
    rw [hid]
    dsimp only
    rw [he]
  · rintro ⟨e, he⟩
    unfold process_item
    rw [hid]
    dsimp only
    cases hd : self.get_content_details net ct tid with
    | error e2 => rfl
    | ok d =>
      dsimp only
      rw [he]
  · rintro x i hx hi hne ⟨e, he⟩
    unfold process_item
    rw [hid]
    dsimp only
    cases hd : self.get_content_details net ct tid with
    | error e2 => rfl
    | ok d =>
      dsimp only
      rw [hx]
      dsimp only
      cases hg : joinedGenres d.genres with
      | error e3 => rfl
      | ok g =>
        dsimp only
        rw [hi]
        dsimp only
        rw [if_neg hne]
        rw [he]
  · intro hskip
    simp [process_items, hskip]
  · rintro d g x hd hg hx hnone
    unfold process_item
    rw [hid]
    dsimp only
    rw [hd]
    dsimp only
    rw [hx]
    dsimp only
    rw [hg]
    dsimp only
    rw [hnone]
    exact ⟨_, rfl, rfl, rfl, rfl⟩

/-- C8 witness: concrete runs exercising each failure mode and the
fallback: a failing detail lookup, a failing external-id lookup, and a
failing rating lookup each drop the titleless item (leaving the remaining
pass unchanged), while an all-success run without resolved data emits the
record with sentinel fields. -/
theorem c8_enrichment_failure_skips_item_witness :
    (process_item fetcher0 netDetailsFail "movie" "Netflix"
        itemTitleless).2 = none ∧
      (process_items fetcher0 netDetailsFail "movie" "Netflix"
          (itemTitleless :: [])).2
        = (process_items fetcher0 netDetailsFail "movie" "Netflix" []).2 ∧
      (process_item fetcher0 netExtFail "movie" "Netflix"
        itemTitleless).2 = none ∧
      (process_item fetcher0 netOmdbFail "movie" "Netflix"
        itemTitleless).2 = none ∧
      ∃ r, (process_item fetcher0 netTitleless "movie" "Netflix"
          itemTitleless).2 = some r ∧
        r.genres = none ∧ r.imdb_rating = "N/A" ∧ r.imdb_votes = "N/A" := by
  have h1 := c8_enrichment_failure_skips_item fetcher0 netDetailsFail
    "movie" "Netflix" itemTitleless [] 1 rfl
  have h2 := c8_enrichment_failure_skips_item fetcher0 netExtFail
    "movie" "Netflix" itemTitleless [] 1 rfl
  have h3 := c8_enrichment_failure_skips_item fetcher0 netOmdbFail
    "movie" "Netflix" itemTitleless [] 1 rfl
  have h4 := c8_enrichment_failure_skips_item fetcher0 netTitleless
    "movie" "Netflix" itemTitleless [] 1 rfl
  have hskip1 := h1.1 ⟨"TransportError", rfl⟩
  exact ⟨hskip1, h1.2.2.2.1 hskip1, h2.2.1 ⟨"TransportError", rfl⟩,
    h3.2.2.1 { imdb_id := some "tt0000001" } "tt0000001" rfl rfl (by decide)
      ⟨"TransportError", rfl⟩,
    h4.2.2.2.2 { genres := none } none { imdb_id := none } rfl rfl rfl rfl⟩

/-! ### Field invariants of emitted records -/

theorem process_item_fields (self : StreamingDataFetcher) (net : Net)
    (ct pname : String) (item : Item) (r : ContentInfo)
    (h : (process_item self net ct pname item).2 = some r) :
    r.type = (if ct = "tv" then "TV Show" else "Movie") ∧
      r.provider = pname := by
  unfold process_item at h
  cases hid : item.id with
  | none => rw [hid] at h; simp at h
  | some tid =>
    rw [hid] at h
    dsimp only at h
    repeat' split at h
    all_goals simp_all
    all_goals (subst h; exact ⟨rfl, rfl⟩)

theorem process_items_fields (self : StreamingDataFetcher) (net : Net)
    (ct pname : String) (items : List Item) (r : ContentInfo)
    (h : r ∈ (process_items self net ct pname items).2) :
    r.type = (if ct = "tv" then "TV Show" else "Movie") ∧
      r.provider = pname := by
  induction items with
  | nil => simp [process_items] at h
  | cons item rest ih =>
    simp only [process_items, List.mem_append] at h
    rcases h with h | h
    · cases hx : (process_item self net ct pname item).2 with
      | none => rw [hx] at h; simp at h
      | some a =>
        rw [hx] at h
        simp only [Option.toList_some, List.mem_singleton] at h
        subst h
        exact process_item_fields self net ct pname item r hx
    · exact ih h

theorem run_pages_fields (self : StreamingDataFetcher) (net : Net)
    (ct : String) (pid : Int) (pname : String) (initial : DiscoverResponse)
    (tp pidx tprov : Int) (pages : List Int) (r : ContentInfo)
    (h : r ∈ (run_pages self net ct pid pname initial tp pidx tprov
      pages).2) :
    r.type = (if ct = "tv" then "TV Show" else "Movie") ∧
      r.provider = pname := by
  induction pages with
  | nil => simp [run_pages] at h
  | cons page rest ih =>
    simp only [run_pages] at h
    split at h
    · split at h
      · simp at h
      · simp only [List.mem_append] at h
        rcases h with h | h
        · exact process_items_fields self net ct pname _ r
            (by simpa [process_page] using h)
        · exact ih h
    · simp only [List.mem_append] at h
      rcases h with h | h
      · exact process_items_fields self net ct pname _ r
          (by simpa [process_page] using h)
      · exact ih h

theorem process_combination_fields (self : StreamingDataFetcher) (net : Net)
    (ct : String) (pid : Int) (pname : String) (pidx tprov mp : Int)
    (r : ContentInfo)
    (h : r ∈ (process_combination self net ct pid pname pidx tprov mp).2) :
    r.type = (if ct = "tv" then "TV Show" else "Movie") ∧
      r.provider = pname := by
  unfold process_combination at h
  split at h
  · simp at h
  · exact run_pages_fields self net ct pid pname _ _ pidx tprov _ r h

theorem run_combinations_fields (self : StreamingDataFetcher) (net : Net)
    (tprov mp : Int) (combos : List (String × Int × String)) :
    ∀ (idx : Int) (r : ContentInfo),
      r ∈ (run_combinations self net tprov mp idx combos).2 →
      ∃ c ∈ combos,
        r.type = (if c.1 = "tv" then "TV Show" else "Movie") ∧
          r.provider = c.2.2 := by
  induction combos with
  | nil => intro idx r h; simp [run_combinations] at h
  | cons c rest ih =>
    intro idx r h
    obtain ⟨ct, pid, pname⟩ := c
    simp only [run_combinations, List.mem_append] at h
    rcases h with h | h
    · exact ⟨(ct, pid, pname), by simp,
        process_combination_fields self net ct pid pname _ tprov mp r h⟩
    · obtain ⟨c2, hc2, hf⟩ := ih (idx + 1) r h
      exact ⟨c2, by simp [hc2], hf⟩

/-- C7 amended: category and provider are always populated with legal values
(the primary-source identifier is populated by construction: items without an
id raise and are skipped).  The original claim fails for `title`, which is
copied from the discover item and is null when the name/title key is
absent. -/
theorem c7_category_provider_always_populated (self : StreamingDataFetcher)
    (net : Net) (now : String) (mp : Int) (r : ContentInfo)
    (h : r ∈ (self.build_content_database net now mp).records) :
    (r.type = "Movie" ∨ r.type = "TV Show") ∧
      r.provider ∈ self.providers.map Prod.snd := by
  have h2 : r ∈ (run_combinations self net (self.providers.length : Int) mp 0
      self.combinations).2 := by
    simpa [StreamingDataFetcher.build_content_database] using h
  obtain ⟨c, hc, htype, hprov⟩ :=
    run_combinations_fields self net _ mp self.combinations 0 r h2
  refine ⟨?_, ?_⟩
  · by_cases hct : c.1 = "tv"
    · right; simp [htype, hct]
    · left; simp [htype, hct]
  · rw [hprov]
    simp only [StreamingDataFetcher.combinations, List.mem_flatten,
      List.mem_map] at hc
    obtain ⟨block, ⟨ct2, hct2, hblock⟩, hcb⟩ := hc
    subst hblock
    obtain ⟨pr, hpr, hc2⟩ := List.mem_map.mp hcb
    have : c.2.2 = pr.2 := by rw [← hc2]
    rw [this]
    exact List.mem_map_of_mem Prod.snd hpr

/-- C7 witness: the record of the titleless item has category Movie and
provider Netflix. -/
theorem c7_category_provider_always_populated_witness :
    recC7 ∈ (fetcher0.build_content_database netTitleless ("t") 1).records ∧
      ((recC7.type = "Movie" ∨ recC7.type = "TV Show") ∧
        recC7.provider ∈ fetcher0.providers.map Prod.snd) :=
  ⟨by decide, c7_category_provider_always_populated fetcher0 netTitleless "t"
    1 recC7 (by decide)⟩

/-! ### Code-point lexicographic order facts, for snapshot selection -/

theorem lexLt_irrefl (l : List Char) : lexLtChars l l = false := by
  induction l with
  | nil => rfl
  | cons a as ih => simp [lexLtChars, lt_irrefl, ih]

theorem lexLt_trans {a b c : List Char} (h1 : lexLtChars a b = true)
    (h2 : lexLtChars b c = true) : lexLtChars a c = true := by
  induction a generalizing b c with
  | nil =>
    cases b with
    | nil => simp [lexLtChars] at h1
    | cons x xs =>
      cases c with
      | nil => simp [lexLtChars] at h2
      | cons y ys => simp [lexLtChars]
  | cons p ps ih =>
    cases b with
    | nil => simp [lexLtChars] at h1
    | cons x xs =>
      cases c with
      | nil => simp [lexLtChars] at h2
      | cons y ys =>
        simp only [lexLtChars] at h1 h2 ⊢
        by_cases hpx : p < x
        · by_cases hxy : x < y
          · simp [lt_trans hpx hxy]
          · by_cases hyx : y < x
            · simp [hxy, hyx] at h2
            · have hxy2 : x = y :=
                le_antisymm (le_of_not_lt hyx) (le_of_not_lt hxy)
              subst hxy2
              simp [hpx]
        · by_cases hxp : x < p
          · simp [hpx, hxp] at h1
          · have hpx2 : p = x :=
              le_antisymm (le_of_not_lt hxp) (le_of_not_lt hpx)
            subst hpx2
            simp [lt_irrefl] at h1
            by_cases hpy : p < y
            · simp [hpy]
            · by_cases hyp : y < p
              · simp [hpy, hyp] at h2
              · have hpy2 : p = y :=
                  le_antisymm (le_of_not_lt hyp) (le_of_not_lt hpy)
                subst hpy2
                simp [lt_irrefl] at h2
                simp [lt_irrefl, ih h1 h2]

theorem lexLt_conn : ∀ (a b : List Char), lexLtChars a b = false →
    lexLtChars b a = true ∨ a = b := by
  intro a
  induction a with
  | nil =>
    intro b h
    cases b with
    | nil => right; rfl
    | cons y ys => simp [lexLtChars] at h
  | cons p ps ih =>
    intro b h
    cases b with
    | nil => left; rfl
    | cons y ys =>
      simp only [lexLtChars] at h ⊢
      rcases lt_trichotomy p y with hpy | hpy | hpy
      · simp [hpy] at h
      · subst hpy
        simp [lt_irrefl] at h ⊢
        rcases ih ys h with h2 | h2
        · left; exact h2
        · right; rw [h2]
      · left
        simp [hpy, asymm hpy]

theorem strLt_irrefl (a : String) : strLt a a = false := lexLt_irrefl a.data

theorem strLt_trans {a b c : String} (h1 : strLt a b = true)
    (h2 : strLt b c = true) : strLt a c = true := lexLt_trans h1 h2

theorem strLt_conn {a b : String} (h : strLt a b = false) :
    strLt b a = true ∨ b = a := by
  rcases lexLt_conn a.data b.data h with h2 | h2
  · left; exact h2
  · right
    cases a with
    | mk da =>
      cases b with
      | mk db => exact congrArg String.mk (h2.symm : db = da)

theorem latest_file_mem (rest : List String) :
    ∀ f, latest_file f rest ∈ f :: rest := by
  induction rest with
  | nil => intro f; simp [latest_file]
  | cons b rs ih =>
    intro f
    have hstep : latest_file f (b :: rs)
        = latest_file (if strLt f b = true then b else f) rs := rfl
    rw [hstep]
    by_cases hfb : strLt f b = true
    · rw [if_pos hfb]
      exact List.mem_cons_of_mem f (ih b)
    · rw [if_neg hfb]
      rcases List.mem_cons.mp (ih f) with h | h
      · exact List.mem_cons.mpr (Or.inl h)
      · exact List.mem_cons_of_mem f (List.mem_cons_of_mem b h)

theorem latest_file_not_lt (rest : List String) :
    ∀ f x, x ∈ f :: rest → strLt (latest_file f rest) x = false := by
  induction rest with
  | nil =>
    intro f x hx
    have hx2 : x = f := by simpa using hx
    rw [hx2]
    exact strLt_irrefl f
  | cons b rs ih =>
    intro f x hx
    have hstep : latest_file f (b :: rs)
        = latest_file (if strLt f b = true then b else f) rs := rfl
    rw [hstep]
    by_cases hfb : strLt f b = true
    · rw [if_pos hfb]
      rcases List.mem_cons.mp hx with hxf | hx2
      · cases hLx : strLt (latest_file b rs) x with
        | false => rfl
        | true =>
          have hLb := ih b b (List.mem_cons_self b rs)
          have hxb : strLt x b = true := by rw [hxf]; exact hfb
          have : strLt (latest_file b rs) b = true := strLt_trans hLx hxb
          rw [this] at hLb
          exact absurd hLb (by simp)
      · exact ih b x hx2
    · rw [if_neg hfb]
      have hfb2 : strLt f b = false := by
        cases hv : strLt f b with
        | false => rfl
        | true => exact absurd hv hfb
      rcases List.mem_cons.mp hx with hxf | hx2
      · exact ih f x (by rw [hxf]; exact List.mem_cons_self f rs)
      · rcases List.mem_cons.mp hx2 with hxb | hx3
        · rcases strLt_conn hfb2 with hbf | hbf
          · cases hLx : strLt (latest_file f rs) x with
            | false => rfl
            | true =>
              have hLf := ih f f (List.mem_cons_self f rs)
              have hxf2 : strLt x f = true := by rw [hxb]; exact hbf
              have : strLt (latest_file f rs) f = true :=
                strLt_trans hLx hxf2
              rw [this] at hLf
              exact absurd hLf (by simp)
          · have hxf2 : x = f := hxb.trans hbf
            exact ih f x (by rw [hxf2]; exact List.mem_cons_self f rs)
        · exact ih f x (List.mem_cons_of_mem f hx3)

/-- C9: with `force_refresh` false and at least one file matching the
snapshot pattern, `load_or_create_database` loads the lexicographically
greatest matching filename and returns its table with that filename, with an
empty effect trace — in particular the aggregation engine is never invoked
and no outbound call or write occurs. -/
theorem c9_reuse_latest_snapshot_no_engine (tmdb_key omdb_key : String)
    (net : Net) (fs : FS) (mp : Int) (f : String) (rest : List String)
    (t : List ContentInfo)
    (hf : fs.listing.filter snapshotName = f :: rest)
    (ht : fs.read_csv (latest_file f rest) = Except.ok t) :
    load_or_create_database tmdb_key omdb_key net fs false mp
        = Except.ok { table := t, filename := latest_file f rest,
                      events := [] } ∧
      latest_file f rest ∈ f :: rest ∧
      ∀ x ∈ f :: rest, strLt (latest_file f rest) x = false := by
  refine ⟨?_, latest_file_mem rest f,
    fun x hx => latest_file_not_lt (rest) f x hx⟩
  unfold load_or_create_database
  rw [hf]
  dsimp only
  rw [ht]

/-- C9 witness: two matching snapshots and an unrelated file; the later
timestamp is picked, the earlier one is not greater. -/
theorem c9_reuse_latest_snapshot_no_engine_witness :
    load_or_create_database "k" "k" netAllFail fsTwo false 2
        = Except.ok { table := [],
                      filename := "streaming_content_20240601_000000.csv",
                      events := [] } ∧
      strLt "streaming_content_20240601_000000.csv"
        "streaming_content_20240101_010101.csv" = false := by
  have h := c9_reuse_latest_snapshot_no_engine "k" "k" netAllFail fsTwo 2
    "streaming_content_20240101_010101.csv"
    ["streaming_content_20240601_000000.csv"] [] rfl rfl
  exact ⟨h.1, h.2.2 "streaming_content_20240101_010101.csv"
    (List.mem_cons_self _ _)⟩

/-! ### C10: grouping of the output by category and provider -/

/-- Position of a name in a list of names (first match). -/
def namePos : List String → String → Nat
  | [], _ => 0
  | n :: ns, s => if s = n then 0 else namePos ns s + 1

/-- Category rank: the Movie block precedes the TV Show block. -/
def typeRank (r : ContentInfo) : Nat := if r.type = "TV Show" then 1 else 0

/-- Provider rank: position of the record's provider in the fixed provider
order Netflix, Apple TV, Amazon Prime, Disney+, HBO Max, Hulu. -/
def providerRank (self : StreamingDataFetcher) (r : ContentInfo) : Nat :=
  namePos (self.providers.map Prod.snd) r.provider

/-- Lexicographic comparison of (category rank, provider rank) pairs. -/
def pairLe (a b : Nat × Nat) : Prop :=
  a.1 < b.1 ∨ (a.1 = b.1 ∧ a.2 ≤ b.2)

instance (a b : Nat × Nat) : Decidable (pairLe a b) := by
  unfold pairLe; infer_instance

/-- Rank pair of one (content type, provider) combination. -/
def comboRankPair (self : StreamingDataFetcher)
    (c : String × Int × String) : Nat × Nat :=
  ((if c.1 = "tv" then 1 else 0), namePos (self.providers.map Prod.snd) c.2.2)

theorem rank_of_fields (self : StreamingDataFetcher) (r : ContentInfo)
    (c : String × Int × String)
    (h : r.type = (if c.1 = "tv" then "TV Show" else "Movie") ∧
      r.provider = c.2.2) :
    (typeRank r, providerRank self r) = comboRankPair self c := by
  obtain ⟨ht, hp⟩ := h
  unfold typeRank providerRank comboRankPair
  rw [ht, hp]
  by_cases hct : c.1 = "tv"
  · simp [hct]
  · simp [hct]

theorem pairwise_map_const {α : Type} (f : α → Nat × Nat) (l : List α)
    (k : Nat × Nat) (h : ∀ a ∈ l, f a = k) :
    (l.map f).Pairwise pairLe := by
  induction l with
  | nil => simp
  | cons a as ih =>
    rw [List.map_cons, List.pairwise_cons]
    constructor
    · intro b hb
      obtain ⟨x, hx, hfx⟩ := List.mem_map.mp hb
      rw [← hfx, h a (by simp), h x (by simp [hx])]
      exact Or.inr ⟨rfl, le_refl _⟩
    · exact ih (fun a2 ha2 => h a2 (by simp [ha2]))

theorem run_combinations_sorted (self : StreamingDataFetcher) (net : Net)
    (tprov mp : Int) (combos : List (String × Int × String)) :
    ∀ idx : Int,
      (combos.map (comboRankPair self)).Pairwise pairLe →
      ((run_combinations self net tprov mp idx combos).2.map
        (fun r => (typeRank r, providerRank self r))).Pairwise pairLe := by
  induction combos with
  | nil => intro idx _; simp [run_combinations]
  | cons c rest ih =>
    intro idx h
    obtain ⟨ct, pid, pname⟩ := c
    rw [List.map_cons, List.pairwise_cons] at h
    simp only [run_combinations]
    rw [List.map_append, List.pairwise_append]
    refine ⟨?_, ih (idx + 1) h.2, ?_⟩
    · exact pairwise_map_const _ _ (comboRankPair self (ct, pid, pname))
        (fun r hr => rank_of_fields self r (ct, pid, pname)
          (process_combination_fields self net ct pid pname _ tprov mp r hr))
    · intro x hx y hy
      obtain ⟨rx, hrx, hfx⟩ := List.mem_map.mp hx
      obtain ⟨ry, hry, hfy⟩ := List.mem_map.mp hy
      obtain ⟨c2, hc2, hf2⟩ :=
        run_combinations_fields self net tprov mp rest (idx + 1) ry hry
      rw [← hfx, ← hfy,
        rank_of_fields self rx (ct, pid, pname)
          (process_combination_fields self net ct pid pname _ tprov mp rx
            hrx),
        rank_of_fields self ry c2 hf2]
      exact h.1 (comboRankPair self c2) (List.mem_map_of_mem _ hc2)

/-- C10: in the returned record sequence, ranks (category, provider) are
lexicographically non-decreasing: every Movie record precedes every TV Show
record, and within a category the records of each provider form a contiguous
block in the fixed provider order of the table in `__init__`. -/
theorem c10_records_grouped_in_fixed_order (self : StreamingDataFetcher)
    (net : Net) (now : String) (mp : Int) :
    ((self.build_content_database net now mp).records.map
      (fun r => (typeRank r, providerRank self r))).Pairwise pairLe := by
  have hconc : self.combinations.map (comboRankPair self)
      = [(0, 0), (0, 1), (0, 2), (0, 3), (0, 4), (0, 5),
         (1, 0), (1, 1), (1, 2), (1, 3), (1, 4), (1, 5)] := rfl
  have hsorted : (self.combinations.map (comboRankPair self)).Pairwise
      pairLe := by
    rw [hconc]; decide
  have h2 := run_combinations_sorted self net
    (self.providers.length : Int) mp self.combinations 0 hsorted
  simpa [StreamingDataFetcher.build_content_database] using h2
